import Mathlib

/-!
Shallow embedding of `src/lib.rs` of the `adamec_rs` repository: a small set
of declarative UI-rendering helpers (button component, SVG icon renderer,
text-style helper mirroring a typographic scale) over the dominator
retained-mode DOM layer.

Modelling decisions:
* `f32` sizes are embedded as `ℚ`; every constant in the source (34, 41, 2.5,
  3.0, 1.0, ...) is exactly representable, and the only arithmetic is a single
  multiplication by the scale constant.
* A dominator `Dom` is embedded as a pure tree recording the tag, the applied
  css classes, the applied style declarations (in application order), the text
  content and the children.  Style values that the source formats as
  `"{}px"` strings are recorded as `StyleVal.px q`; all other style values
  are recorded verbatim as `StyleVal.lit s`.
* The `class` macro of dominator memoizes a generated css class-name string;
  the generated identifiers are embedded as opaque string constants.
* The external HTML parser (`web_sys::DomParser`) is uninterpreted: parsed
  fragments appear either as a `Dom.parsedHtml src` leaf keyed by the source
  string, or (for the caching development) through an arbitrary function
  `parse : String → Node` standing for the parser.
* The source's `const TEXT_SCALE: f32 = 1.0` is embedded as a constant, and
  the rendering functions take the scale as an explicit parameter so that
  "changing the constant to k" is statable; `TEXT_SCALE` instantiates them.
-/

/-- A css style value: either a pixel quantity that the source renders as
`"{}px"`, or a literal string value. -/
inductive StyleVal where
  | px (q : ℚ)
  | lit (s : String)
deriving DecidableEq, Repr

/-- A DOM node tree, used to model the output of the external HTML parser
(`web_sys::Node`).  The parser itself is uninterpreted. -/
inductive Node where
  | element (tag : String) (attrs : List (String × String)) (children : List Node)
  | textNode (s : String)
deriving Repr

mutual

/-- Model of `Node::clone_node_with_deep(true)`: rebuilds the whole tree,
yielding an independently-owned, structurally identical copy. -/
def Node.deepClone : Node → Node
  | .textNode s => .textNode s
  | .element t a cs => .element t a (Node.deepCloneList cs)

/-- Deep-clones every node of a list of children. -/
def Node.deepCloneList : List Node → List Node
  | [] => []
  | c :: cs => Node.deepClone c :: Node.deepCloneList cs

end

mutual

/-- A deep clone is structurally identical to the original node. -/
theorem Node.deepClone_eq : (n : Node) → Node.deepClone n = n
  | .textNode s => by rw [Node.deepClone]
  | .element t a cs => by rw [Node.deepClone, Node.deepCloneList_eq cs]

/-- Deep-cloning a list of children is structurally the identity. -/
theorem Node.deepCloneList_eq : (l : List Node) → Node.deepCloneList l = l
  | [] => by rw [Node.deepCloneList]
  | c :: cs => by rw [Node.deepCloneList, Node.deepClone_eq c, Node.deepCloneList_eq cs]

end

/-- Model of a dominator `Dom` fragment as produced by the helpers in this
repository: an element node carrying the applied classes, style declarations
(in application order), optional text content and children; or a fragment
obtained by parsing a raw HTML source string (`raw_html!`), kept abstract and
keyed by that source string. -/
inductive Dom where
  | elem (tag : String) (cssClasses : List String)
      (styles : List (String × StyleVal)) (textContent : Option String)
      (children : List Dom)
  | parsedHtml (source : String)
deriving Repr

/-- Looks up the value of a style declaration applied to the root of a
fragment (the first declaration with the given name, matching how a single
`style` call per property is emitted by the source). -/
def getStyle (d : Dom) (name : String) : Option StyleVal :=
  match d with
  | .elem _ _ styles _ _ => (styles.find? (fun p => p.1 == name)).map (fun p => p.2)
  | .parsedHtml _ => none

/-- The children of the root of a fragment. -/
def Dom.childrenOf : Dom → List Dom
  | .elem _ _ _ _ children => children
  | .parsedHtml _ => []

/-- `enum Icon { Trash, Plus }` — the closed set of icon kinds. -/
inductive Icon where
  | Trash
  | Plus
deriving DecidableEq, Repr

/-- The raw SVG markup strings passed to `raw_html!` inside
`render_icon_svg`, one per icon kind. -/
def iconSvgSource (i : Icon) : String :=
  match i with
  | .Trash => "<svg xmlns=\"http://www.w3.org/2000/svg\" viewBox=\"0 0 24 24\"><path fill=\"none\" stroke=\"currentColor\" stroke-linecap=\"round\" stroke-linejoin=\"round\" stroke-width=\"2\" d=\"M4 6h16l-1.58 14.22A2 2 0 0 1 16.432 22H7.568a2 2 0 0 1-1.988-1.78zm3.345-2.853A2 2 0 0 1 9.154 2h5.692a2 2 0 0 1 1.81 1.147L18 6H6zM2 6h20m-12 5v5m4-5v5\"/></svg>"
  | .Plus => "<svg xmlns=\"http://www.w3.org/2000/svg\" viewBox=\"0 0 16 16\"> <path stroke=\"currentColor\" stroke-linecap=\"round\" stroke-linejoin=\"round\" d=\"M8 3v10M3 8h10\" style=\"stroke-width: var(--icon-weight, 2);\"/></svg>"

/-- `fn render_icon_svg(icon: Icon) -> Dom`: returns the parse-once,
deep-cloned fragment of the markup for the given icon kind.  In the `Dom`
tree model the fragment is the abstract parse of the source string. -/
def render_icon_svg (icon : Icon) : Dom :=
  Dom.parsedHtml (iconSvgSource icon)

/-- `struct IconStyle { size: f32, weight: Option<f32> }`. -/
structure IconStyle where
  size : ℚ
  weight : Option ℚ
deriving DecidableEq, Repr

/-- `IconStyle::new(size)` — no weight. -/
def IconStyle.new (size : ℚ) : IconStyle :=
  { size := size, weight := none }

/-- `struct FontStyle { size: f32, leading: f32, weight: Option<&str>,
style: Option<&str> }`. -/
structure FontStyle where
  size : ℚ
  leading : ℚ
  weight : Option String
  style : Option String
deriving DecidableEq, Repr

/-- `FontStyle::new(size, leading)`. -/
def FontStyle.new (size leading : ℚ) : FontStyle :=
  { size := size, leading := leading, weight := none, style := none }

/-- `FontStyle::weight(self, weight)` — the fluent weight setter (named
`withWeight` here because the record field is already named `weight`). -/
def FontStyle.withWeight (f : FontStyle) (w : String) : FontStyle :=
  { f with weight := some w }

/-- `FontStyle::italic(self)` — sets `style` to `Some("italic")`. -/
def FontStyle.italic (f : FontStyle) : FontStyle :=
  { f with style := some "italic" }

/-- `fn font_weight_to_icon_weight(weight: Option<&str>) -> Option<f32>`. -/
def font_weight_to_icon_weight (weight : Option String) : Option ℚ :=
  match weight with
  | some "bold" => some 3
  | some "600" => some 2.5
  | some "normal" => some 2
  | _ => none

/-- The memoized css class-name generated by the `class` macro for
`STANDARD_FONT_CLASS` (font-family and color declarations); the generated
identifier is opaque, so it is embedded as a fixed string constant. -/
def STANDARD_FONT_CLASS : String := "standard-font-class"

/-- `const TEXT_SCALE: f32 = 1.0` — the global text-scale constant. -/
def TEXT_SCALE : ℚ := 1

/-- `fn scaled_size(size: f32) -> String { format!("{}px", size * TEXT_SCALE) }`,
with the scale constant made an explicit first parameter so that changing it
is statable; the pixel quantity is the returned value. -/
def scaled_size (scale : ℚ) (size : ℚ) : ℚ :=
  size * scale

/-- `struct TextHelper<'a> { text: &'a str }`. -/
structure TextHelper where
  text : String
deriving DecidableEq, Repr

/-- `fn text(text: &str) -> TextHelper`. -/
def text (s : String) : TextHelper :=
  { text := s }

/-- `TextHelper::render_with_style(self, font_style)`: a div with the shared
font class, `font-size` and `line-height` from `scaled_size`, the text, then
`font-weight` only if set and `font-style` only if set. -/
def TextHelper.render_with_style (scale : ℚ) (t : TextHelper)
    (font_style : FontStyle) : Dom :=
  Dom.elem "div" [STANDARD_FONT_CLASS]
    ([("font-size", StyleVal.px (scaled_size scale font_style.size)),
      ("line-height", StyleVal.px (scaled_size scale font_style.leading))] ++
      (match font_style.weight with
       | some w => [("font-weight", StyleVal.lit w)]
       | none => []) ++
      (match font_style.style with
       | some s => [("font-style", StyleVal.lit s)]
       | none => []))
    (some t.text)
    []

/-- `TextHelper::custom(self, font_style)`. -/
def TextHelper.custom (scale : ℚ) (t : TextHelper) (font_style : FontStyle) : Dom :=
  t.render_with_style scale font_style

/-- `TextHelper::large_title`. -/
def TextHelper.large_title (scale : ℚ) (t : TextHelper) : Dom :=
  t.render_with_style scale ((FontStyle.new 34 41).withWeight "bold")

/-- `TextHelper::title`. -/
def TextHelper.title (scale : ℚ) (t : TextHelper) : Dom :=
  t.render_with_style scale ((FontStyle.new 28 34).withWeight "bold")

/-- `TextHelper::title2`. -/
def TextHelper.title2 (scale : ℚ) (t : TextHelper) : Dom :=
  t.render_with_style scale ((FontStyle.new 22 28).withWeight "bold")

/-- `TextHelper::title3`. -/
def TextHelper.title3 (scale : ℚ) (t : TextHelper) : Dom :=
  t.render_with_style scale ((FontStyle.new 20 25).withWeight "bold")

/-- `TextHelper::headline`. -/
def TextHelper.headline (scale : ℚ) (t : TextHelper) : Dom :=
  t.render_with_style scale ((FontStyle.new 17 22).withWeight "600")

/-- `TextHelper::body`. -/
def TextHelper.body (scale : ℚ) (t : TextHelper) : Dom :=
  t.render_with_style scale (FontStyle.new 17 22)

/-- `TextHelper::callout`. -/
def TextHelper.callout (scale : ℚ) (t : TextHelper) : Dom :=
  t.render_with_style scale ((FontStyle.new 16 21).italic)

/-- `TextHelper::subheadline`. -/
def TextHelper.subheadline (scale : ℚ) (t : TextHelper) : Dom :=
  t.render_with_style scale (FontStyle.new 15 20)

/-- `TextHelper::footnote`. -/
def TextHelper.footnote (scale : ℚ) (t : TextHelper) : Dom :=
  t.render_with_style scale (FontStyle.new 13 18)

/-- `TextHelper::caption`. -/
def TextHelper.caption (scale : ℚ) (t : TextHelper) : Dom :=
  t.render_with_style scale (FontStyle.new 12 16)

/-- `TextHelper::caption2`. -/
def TextHelper.caption2 (scale : ℚ) (t : TextHelper) : Dom :=
  t.render_with_style scale (FontStyle.new 11 13)

/-- `struct IconHelper { icon: Icon, style: IconStyle }`. -/
structure IconHelper where
  icon : Icon
  style : IconStyle
deriving DecidableEq, Repr

/-- `IconHelper::new(icon)` — default style of size 16 and no weight. -/
def IconHelper.new (i : Icon) : IconHelper :=
  { icon := i, style := IconStyle.new 16 }

/-- `fn icon(icon: Icon) -> IconHelper`. -/
def icon (i : Icon) : IconHelper :=
  IconHelper.new i

/-- `IconHelper::custom_size(mut self, size)`. -/
def IconHelper.custom_size (h : IconHelper) (size : ℚ) : IconHelper :=
  { h with style := { h.style with size := size } }

/-- `IconHelper::weight(mut self, weight)` (named `withWeight` here because
the nested field path is already named `weight`). -/
def IconHelper.withWeight (h : IconHelper) (w : ℚ) : IconHelper :=
  { h with style := { h.style with weight := some w } }

/-- `IconHelper::font(mut self, font_style)`: copies the font size, and
overwrites the stroke weight only when the weight mapping yields a value. -/
def IconHelper.font (h : IconHelper) (font_style : FontStyle) : IconHelper :=
  { h with style :=
      { size := font_style.size
        weight :=
          match font_weight_to_icon_weight font_style.weight with
          | some icon_weight => some icon_weight
          | none => h.style.weight } }

/-- `IconHelper::finish(self)`: a square inline-block div of the scaled size
with the shared font class, the `--icon-weight` variable only if a weight is
present (emitted as `format!("{}px", w)`, without scaling), containing the
cached icon markup. -/
def IconHelper.finish (scale : ℚ) (h : IconHelper) : Dom :=
  Dom.elem "div" [STANDARD_FONT_CLASS]
    ([("display", StyleVal.lit "inline-block"),
      ("width", StyleVal.px (scaled_size scale h.style.size)),
      ("height", StyleVal.px (scaled_size scale h.style.size))] ++
      (match h.style.weight with
       | some w => [("--icon-weight", StyleVal.px w)]
       | none => []))
    none
    [render_icon_svg h.icon]

/-- `IconHelper::large_title`. -/
def IconHelper.large_title (scale : ℚ) (h : IconHelper) : Dom :=
  (h.font ((FontStyle.new 34 41).withWeight "bold")).finish scale

/-- `IconHelper::title`. -/
def IconHelper.title (scale : ℚ) (h : IconHelper) : Dom :=
  (h.font ((FontStyle.new 28 34).withWeight "bold")).finish scale

/-- `IconHelper::title2`. -/
def IconHelper.title2 (scale : ℚ) (h : IconHelper) : Dom :=
  (h.font ((FontStyle.new 22 28).withWeight "bold")).finish scale

/-- `IconHelper::title3`. -/
def IconHelper.title3 (scale : ℚ) (h : IconHelper) : Dom :=
  (h.font ((FontStyle.new 20 25).withWeight "bold")).finish scale

/-- `IconHelper::headline`. -/
def IconHelper.headline (scale : ℚ) (h : IconHelper) : Dom :=
  (h.font ((FontStyle.new 17 22).withWeight "600")).finish scale

/-- `IconHelper::body`. -/
def IconHelper.body (scale : ℚ) (h : IconHelper) : Dom :=
  (h.font (FontStyle.new 17 22)).finish scale

/-- `IconHelper::callout`. -/
def IconHelper.callout (scale : ℚ) (h : IconHelper) : Dom :=
  (h.font ((FontStyle.new 16 21).italic)).finish scale

/-- `IconHelper::subheadline`. -/
def IconHelper.subheadline (scale : ℚ) (h : IconHelper) : Dom :=
  (h.font (FontStyle.new 15 20)).finish scale

/-- `IconHelper::footnote`. -/
def IconHelper.footnote (scale : ℚ) (h : IconHelper) : Dom :=
  (h.font (FontStyle.new 13 18)).finish scale

/-- `IconHelper::caption`. -/
def IconHelper.caption (scale : ℚ) (h : IconHelper) : Dom :=
  (h.font (FontStyle.new 12 16)).finish scale

/-- `IconHelper::caption2`. -/
def IconHelper.caption2 (scale : ℚ) (h : IconHelper) : Dom :=
  (h.font (FontStyle.new 11 13)).finish scale

/-- `IconHelper::custom(self, font_style)`. -/
def IconHelper.custom (scale : ℚ) (h : IconHelper) (font_style : FontStyle) : Dom :=
  (h.font font_style).finish scale

/-- The named entries of the typographic scale, one constructor per named
terminal method that `TextHelper` and `IconHelper` expose in the source
(`custom` is the separate arbitrary entry and is not listed here). -/
inductive Preset where
  | large_title
  | title
  | title2
  | title3
  | headline
  | body
  | callout
  | subheadline
  | footnote
  | caption
  | caption2
deriving DecidableEq, Repr

/-- The list of all named presets, in source order. -/
def Preset.all : List Preset :=
  [.large_title, .title, .title2, .title3, .headline, .body, .callout,
   .subheadline, .footnote, .caption, .caption2]

/-- Dispatches a named preset to the corresponding named terminal method of
the text helper, exactly as defined in the source. -/
def textTerminal (scale : ℚ) (t : TextHelper) : Preset → Dom
  | .large_title => t.large_title scale
  | .title => t.title scale
  | .title2 => t.title2 scale
  | .title3 => t.title3 scale
  | .headline => t.headline scale
  | .body => t.body scale
  | .callout => t.callout scale
  | .subheadline => t.subheadline scale
  | .footnote => t.footnote scale
  | .caption => t.caption scale
  | .caption2 => t.caption2 scale

/-- Dispatches a named preset to the corresponding named terminal method of
the icon helper, exactly as defined in the source. -/
def iconTerminal (scale : ℚ) (h : IconHelper) : Preset → Dom
  | .large_title => h.large_title scale
  | .title => h.title scale
  | .title2 => h.title2 scale
  | .title3 => h.title3 scale
  | .headline => h.headline scale
  | .body => h.body scale
  | .callout => h.callout scale
  | .subheadline => h.subheadline scale
  | .footnote => h.footnote scale
  | .caption => h.caption scale
  | .caption2 => h.caption2 scale

/-- Modelled from the spec: the documented font size of each named entry of
the scale ("large-title 34/41, title 28/34, title2 22/28, title3 20/25,
headline 17/22, body 17/22, callout 16/21, subheadline 15/20, footnote 13/18,
caption 12/16, caption2 11/13"). -/
def docSize : Preset → ℚ
  | .large_title => 34
  | .title => 28
  | .title2 => 22
  | .title3 => 20
  | .headline => 17
  | .body => 17
  | .callout => 16
  | .subheadline => 15
  | .footnote => 13
  | .caption => 12
  | .caption2 => 11

/-- Modelled from the spec: the documented leading (line-height) of each
named entry of the scale. -/
def docLeading : Preset → ℚ
  | .large_title => 41
  | .title => 34
  | .title2 => 28
  | .title3 => 25
  | .headline => 22
  | .body => 22
  | .callout => 21
  | .subheadline => 20
  | .footnote => 18
  | .caption => 16
  | .caption2 => 13

/-- Modelled from the spec: the documented font weight of each named entry
(bold for the four title entries, "600" for headline, unset otherwise). -/
def docWeight : Preset → Option String
  | .large_title => some "bold"
  | .title => some "bold"
  | .title2 => some "bold"
  | .title3 => some "bold"
  | .headline => some "600"
  | _ => none

/-- Modelled from the spec: whether the documented entry is italic (only
callout). -/
def docItalic : Preset → Bool
  | .callout => true
  | _ => false

/-- Modelled from the spec: the documented FontStyle of each named preset,
assembled from the documented size, leading, weight and italic flag. -/
def docFontStyle (p : Preset) : FontStyle :=
  { size := docSize p
    leading := docLeading p
    weight := docWeight p
    style := if docItalic p then some "italic" else none }

/-- `enum ButtonEvent { Clicked }`. -/
inductive ButtonEvent where
  | Clicked
deriving DecidableEq, Repr

/-- `struct EventDispatcher<A, F> { listener: Arc<Mutex<F>>, ... }`.

The `FnMut` listener is embedded as a pure transition function
`listener : A → σ → σ` on its captured mutable state `σ`, and the
`Arc<Mutex<...>>` cell holding that state as a slot index into a heap of
listener states (`DispatchHeap`).  The mutex always succeeds: the host model
is single-threaded. -/
structure EventDispatcher (A σ : Type) where
  listener : A → σ → σ
  slot : Nat

/-- The heap of listener-state cells addressed by dispatcher slots. -/
def DispatchHeap (σ : Type) : Type := Nat → σ

/-- `impl Clone for EventDispatcher`: clones the `Arc`, i.e. returns a handle
to the very same slot with the same listener. -/
def EventDispatcher.clone {A σ : Type} (d : EventDispatcher A σ) :
    EventDispatcher A σ := d

/-- `EventDispatcher::send(&self, event)`: locks the listener cell and
invokes the listener once with the event, updating only that cell. -/
def EventDispatcher.send {A σ : Type} (d : EventDispatcher A σ)
    (heap : DispatchHeap σ) (e : A) : DispatchHeap σ :=
  Function.update heap d.slot (d.listener e (heap d.slot))

/-- The memoized css class-name generated by the `class` macro inside
`Button::render`; opaque, embedded as a fixed string constant. -/
def BUTTON_CLASS : String := "button-class"

/-- The result of `Button::render`: the produced fragment together with the
dispatcher moved into the click handler. -/
structure RenderedButton (σ : Type) where
  dom : Dom
  dispatcher : EventDispatcher ButtonEvent σ

/-- `Button::render(children, on_event)`: wraps `on_event` in a fresh
`EventDispatcher` (the fresh `Arc` allocation is modelled by the caller
choosing an unused slot index), and produces an outer div containing an inner
div with the memoized button class and the given children.  The click handler
is the closure `move |_: events::Click| event_dispatcher.send(Clicked)`,
exposed through the `dispatcher` field. -/
def Button.render {σ : Type} (children : List Dom) (slot : Nat)
    (on_event : ButtonEvent → σ → σ) : RenderedButton σ :=
  { dom :=
      Dom.elem "div" [] [] none
        [Dom.elem "div" [BUTTON_CLASS] [] none children]
    dispatcher := { listener := on_event, slot := slot } }

/-- Delivers one click event to a rendered button: the registered click
handler runs and performs a single `send` of `ButtonEvent::Clicked`. -/
def buttonClick {σ : Type} (b : RenderedButton σ) (heap : DispatchHeap σ) :
    DispatchHeap σ :=
  b.dispatcher.send heap ButtonEvent.Clicked

/-- The fluent builder operations available on an `IconHelper` before a
terminal method is called. -/
inductive IconOp where
  | customSizeOp (size : ℚ)
  | weightOp (w : ℚ)
  | fontOp (fs : FontStyle)
deriving DecidableEq, Repr

/-- Applies one builder operation to an icon helper, dispatching to the
corresponding source method. -/
def applyOp (h : IconHelper) : IconOp → IconHelper
  | .customSizeOp s => h.custom_size s
  | .weightOp w => h.withWeight w
  | .fontOp fs => h.font fs

/-- Applies a sequence of builder operations left to right. -/
def applyOps (h : IconHelper) (ops : List IconOp) : IconHelper :=
  ops.foldl applyOp h

/-- Whether a builder operation is neither a `.weight(px)` call nor a
`.font(fs)` call whose font weight maps through the weight table. -/
def opKeepsWeightUnset : IconOp → Bool
  | .customSizeOp _ => true
  | .weightOp _ => false
  | .fontOp fs => (font_weight_to_icon_weight fs.weight).isNone

/-- Whether a builder operation is not a size-changing operation: neither a
`.custom_size(px)` call nor a `.font(fs)` call, leaving only `.weight(px)`
calls. -/
def opKeepsSize : IconOp → Bool
  | .customSizeOp _ => false
  | .weightOp _ => true
  | .fontOp _ => false

/-- The process-wide state of the per-call-site `raw_html!` statics used by
`render_icon_svg`: for each icon kind, the lazily cached parsed fragment and
an instrumentation counter recording how many times the markup-parsing
initializer has run. -/
structure IconCache where
  cached : Icon → Option Node
  parses : Icon → Nat

/-- The process state before any access: nothing parsed yet. -/
def IconCache.empty : IconCache :=
  { cached := fun _ => none, parses := fun _ => 0 }

/-- The stateful model of `render_icon_svg` with its `raw_html!` caching:
`parse` stands for the external `DomParser` run plus the construction of the
document fragment from the body's children (uninterpreted).  On first access
for an icon kind the initializer runs (parses and stores the fragment); every
access returns a deep clone of the cached fragment. -/
def render_icon_svg_cached (parse : String → Node) (i : Icon)
    (st : IconCache) : Node × IconCache :=
  match st.cached i with
  | some n => (n.deepClone, st)
  | none =>
    let n := parse (iconSvgSource i)
    (n.deepClone,
      { cached := Function.update st.cached i (some n)
        parses := Function.update st.parses i (st.parses i + 1) })

/-- Invokes the cached icon-markup accessor `count` times for one icon kind,
collecting the returned fragments in order and threading the process state. -/
def runAccessor (parse : String → Node) (i : Icon) :
    Nat → IconCache → List Node × IconCache
  | 0, st => ([], st)
  | count + 1, st =>
    let first := render_icon_svg_cached parse i st
    let rest := runAccessor parse i count first.2
    (first.1 :: rest.1, rest.2)

/-- Multiplies a pixel-valued style entry by `k`, leaving literal values and
entries whose name satisfies `exempt` unchanged. -/
def scaleStyleEntry (k : ℚ) (exempt : String → Bool)
    (p : String × StyleVal) : String × StyleVal :=
  if exempt p.1 then p
  else
    match p.2 with
    | .px q => (p.1, .px (q * k))
    | .lit s => (p.1, .lit s)

mutual

/-- Multiplies every pixel-valued style declaration of a fragment by `k`
(skipping entries whose name satisfies `exempt`) and changes nothing else. -/
def Dom.scalePx (k : ℚ) (exempt : String → Bool) : Dom → Dom
  | .elem t c styles tx ch =>
      .elem t c (styles.map (scaleStyleEntry k exempt)) tx
        (Dom.scalePxList k exempt ch)
  | .parsedHtml s => .parsedHtml s

/-- Applies `Dom.scalePx` to every fragment of a list. -/
def Dom.scalePxList (k : ℚ) (exempt : String → Bool) : List Dom → List Dom
  | [] => []
  | d :: ds => Dom.scalePx k exempt d :: Dom.scalePxList k exempt ds

end

/-- Multiplies every pixel-valued style declaration of a fragment by `k`,
with no exemption: the transformation asserted by the spec for a change of
the global text-scale constant from 1 to `k`. -/
def scaleAllPx (k : ℚ) : Dom → Dom :=
  Dom.scalePx k (fun _ => false)

/-- Multiplies every pixel-valued style declaration of a fragment by `k`
except the `--icon-weight` variable: the transformation the code actually
performs when the global text-scale constant changes from 1 to `k`. -/
def scaleNonIconWeightPx (k : ℚ) : Dom → Dom :=
  Dom.scalePx k (fun n => n == "--icon-weight")

/-- C1: for every named scale entry, the FontStyle used by the text helper's
terminal method equals the documented (size, leading, weight, italic)
constants, the icon helper's terminal method of the same name renders with
the style derived from that same documented FontStyle, and the derived icon
style has the documented size with the weight given by the image of the text
weight under the font-weight-to-icon-weight mapping. -/
theorem text_icon_presets_match_documented_constants :
    ∀ (p : Preset) (s : String) (k : Icon),
      textTerminal TEXT_SCALE (text s) p
        = (text s).render_with_style TEXT_SCALE (docFontStyle p)
      ∧ iconTerminal TEXT_SCALE (icon k) p
          = ((icon k).font (docFontStyle p)).finish TEXT_SCALE
      ∧ ((icon k).font (docFontStyle p)).style
          = { size := docSize p
              weight := font_weight_to_icon_weight (docWeight p) } := by
  intro p s k
  cases p <;> exact ⟨rfl, rfl, rfl⟩

/-- C2: the font-weight-to-icon-weight mapping sends "bold" to 3.0, "600" to
2.5, "normal" to 2.0, and every other input (including None) to None; and for
a font weight the mapping sends to None, the icon helper started from its
default state emits no `--icon-weight` style. -/
theorem font_weight_mapping_total :
    font_weight_to_icon_weight (some "bold") = some 3
    ∧ font_weight_to_icon_weight (some "600") = some 2.5
    ∧ font_weight_to_icon_weight (some "normal") = some 2
    ∧ font_weight_to_icon_weight none = none
    ∧ (∀ s : String, s ≠ "bold" → s ≠ "600" → s ≠ "normal" →
        font_weight_to_icon_weight (some s) = none)
    ∧ (∀ (k : Icon) (fs : FontStyle),
        font_weight_to_icon_weight fs.weight = none →
        getStyle (((icon k).font fs).finish TEXT_SCALE) "--icon-weight" = none) := by
  refine ⟨rfl, rfl, rfl, rfl, ?_, ?_⟩
  · intro s h1 h2 h3
    unfold font_weight_to_icon_weight
    split <;> simp_all
  · intro k fs hmap
    simp [icon, IconHelper.new, IconStyle.new, IconHelper.font, hmap,
      IconHelper.finish, getStyle, List.find?]

/-- Witness for C2: a concrete non-mapped weight yields None, and a concrete
default-state icon with a non-mapped font weight emits no `--icon-weight`. -/
theorem font_weight_mapping_total_witness :
    font_weight_to_icon_weight (some "500") = none
    ∧ getStyle (((icon Icon.Plus).font (FontStyle.new 17 22)).finish TEXT_SCALE)
        "--icon-weight" = none := by
  refine ⟨?_, ?_⟩
  · exact font_weight_mapping_total.2.2.2.2.1 "500"
      (by decide) (by decide) (by decide)
  · exact font_weight_mapping_total.2.2.2.2.2 Icon.Plus (FontStyle.new 17 22)
      (by simp [FontStyle.new, font_weight_to_icon_weight])

/-- C5: `render_with_style` emits font-size and line-height equal to the
style's size and leading scaled by the global text-scale constant, emits a
font-weight declaration exactly when the style's weight is set (with that
value), emits font-style: italic exactly when the italic flag is set; and
`text("Body").body()` emits font-size 17px and line-height 22px with no
font-weight and no font-style declaration. -/
theorem render_with_style_style_declarations :
    ∀ (s : String) (fs : FontStyle),
      getStyle ((text s).render_with_style TEXT_SCALE fs) "font-size"
        = some (StyleVal.px (fs.size * TEXT_SCALE))
      ∧ getStyle ((text s).render_with_style TEXT_SCALE fs) "line-height"
          = some (StyleVal.px (fs.leading * TEXT_SCALE))
      ∧ getStyle ((text s).render_with_style TEXT_SCALE fs) "font-weight"
          = fs.weight.map StyleVal.lit
      ∧ (getStyle ((text s).render_with_style TEXT_SCALE fs) "font-style"
            = some (StyleVal.lit "italic") ↔ fs.style = some "italic")
      ∧ getStyle ((text "Body").body TEXT_SCALE) "font-size"
          = some (StyleVal.px 17)
      ∧ getStyle ((text "Body").body TEXT_SCALE) "line-height"
          = some (StyleVal.px 22)
      ∧ getStyle ((text "Body").body TEXT_SCALE) "font-weight" = none
      ∧ getStyle ((text "Body").body TEXT_SCALE) "font-style" = none := by
  intro s fs
  obtain ⟨sz, ld, w, st⟩ := fs
  cases w <;> cases st <;>
    simp [text, TextHelper.body, TextHelper.render_with_style, getStyle,
      scaled_size, TEXT_SCALE, FontStyle.new, List.find?]

/-- C4: for every icon helper state and named preset, the terminal method of
that name equals `.font(preset).finish()` with that preset's FontStyle; and
for every icon helper state, `finish` emits a container whose width and
height both equal the scaled size, carries the `--icon-weight` variable
exactly when a weight value is present (with that value), and contains the
cached icon markup as its only child. -/
theorem icon_terminal_is_font_then_finish :
    ∀ (scale : ℚ) (h : IconHelper) (p : Preset) (g : IconHelper),
      iconTerminal scale h p = (h.font (docFontStyle p)).finish scale
      ∧ getStyle (g.finish scale) "width"
          = some (StyleVal.px (scaled_size scale g.style.size))
      ∧ getStyle (g.finish scale) "height"
          = some (StyleVal.px (scaled_size scale g.style.size))
      ∧ getStyle (g.finish scale) "--icon-weight"
          = g.style.weight.map StyleVal.px
      ∧ Dom.childrenOf (g.finish scale) = [render_icon_svg g.icon] := by
  intro scale h p g
  refine ⟨?_, ?_, ?_, ?_, ?_⟩
  · cases p <;> rfl
  all_goals
    cases hw : g.style.weight <;>
      simp [IconHelper.finish, getStyle, Dom.childrenOf, hw, List.find?]

/-- C6: one click on a rendered button performs exactly one invocation of the
registered callback with exactly `ButtonEvent.Clicked` (the callback's state
cell receives one application of the callback and every other cell is
untouched); cloning a dispatcher handle yields a handle to the very same
callback slot, so sending through the clone behaves identically to sending
through the original; and with a log-keeping callback a single click appends
exactly one `Clicked` entry. -/
theorem button_click_fires_once_and_clone_shares_slot :
    ∀ (σ : Type) (f : ButtonEvent → σ → σ) (slot : Nat) (children : List Dom)
      (heap : DispatchHeap σ),
      buttonClick (Button.render children slot f) heap
        = Function.update heap slot (f ButtonEvent.Clicked (heap slot))
      ∧ (∀ (d : EventDispatcher ButtonEvent σ) (e : ButtonEvent)
            (hp : DispatchHeap σ),
          d.clone = d ∧ d.clone.send hp e = d.send hp e)
      ∧ (∀ (log : DispatchHeap (List ButtonEvent)) (slot2 : Nat)
            (ch2 : List Dom),
          buttonClick (Button.render ch2 slot2 (fun e l => l ++ [e])) log slot2
            = log slot2 ++ [ButtonEvent.Clicked]) := by
  intro σ f slot children heap
  refine ⟨rfl, fun d e hp => ⟨rfl, rfl⟩, ?_⟩
  intro log slot2 ch2
  simp [buttonClick, Button.render, EventDispatcher.send]

/-- Counterexample to C7: starting from a helper on which `.weight(5.0)` was
called, deriving from a FontStyle whose weight does not map through the table
leaves the stroke weight at 5.0 instead of unsetting it, so the derived
weight is not the image of the font weight under the mapping. -/
theorem icon_font_stale_weight_counterexample :
    ((icon Icon.Plus).withWeight 5 |>.font (FontStyle.new 17 22)).style.weight
      ≠ font_weight_to_icon_weight (FontStyle.new 17 22).weight := by
  simp [icon, IconHelper.new, IconStyle.new, IconHelper.withWeight,
    IconHelper.font, FontStyle.new, font_weight_to_icon_weight]

/-- C7 (amended): when the icon helper derives its style from a FontStyle,
the derived size equals the FontStyle's size, and the derived weight is the
value of the mapping table when the table yields one and otherwise the
helper's previous weight; in particular, from the freshly created helper
(whose weight is unset) the derived weight is exactly the image of the font
weight under the mapping. -/
theorem icon_font_derives_size_and_weight :
    ∀ (h : IconHelper) (fs : FontStyle),
      (h.font fs).style.size = fs.size
      ∧ (h.font fs).style.weight
          = (font_weight_to_icon_weight fs.weight).or h.style.weight
      ∧ (∀ k : Icon,
          ((icon k).font fs).style.weight = font_weight_to_icon_weight fs.weight) := by
  intro h fs
  refine ⟨rfl, ?_, ?_⟩
  · cases hm : font_weight_to_icon_weight fs.weight <;>
      simp [IconHelper.font, hm]
  · intro k
    cases hm : font_weight_to_icon_weight fs.weight <;>
      simp [icon, IconHelper.new, IconStyle.new, IconHelper.font, hm]

/-- Counterexample to C3: changing the scale constant from 1 to 2 does not
multiply every emitted pixel dimension by 2 — for an icon helper carrying a
stroke weight of 3, the emitted `--icon-weight` value stays 3px instead of
becoming 6px, because `finish` formats the raw weight without `scaled_size`. -/
theorem scale_constant_icon_weight_counterexample :
    IconHelper.finish 2 { icon := Icon.Plus, style := { size := 16, weight := some 3 } }
      ≠ scaleAllPx 2
          (IconHelper.finish 1 { icon := Icon.Plus, style := { size := 16, weight := some 3 } }) := by
  intro hEq
  have hW := congrArg (fun d => getStyle d "--icon-weight") hEq
  simp [IconHelper.finish, scaleAllPx, Dom.scalePx, scaleStyleEntry, getStyle,
    scaled_size, List.find?] at hW

/-- C3 (amended): changing the global text-scale constant from 1 to k
multiplies every pixel dimension emitted by the text and icon helpers by k
and changes nothing else, except for the icon's `--icon-weight` stroke-width
variable, which is emitted unscaled and is unchanged by the scale constant. -/
theorem scale_constant_multiplies_px_except_icon_weight :
    ∀ (k : ℚ) (s : String) (fs : FontStyle) (h : IconHelper),
      (text s).render_with_style k fs
        = scaleNonIconWeightPx k ((text s).render_with_style 1 fs)
      ∧ IconHelper.finish k h
          = scaleNonIconWeightPx k (IconHelper.finish 1 h)
      ∧ getStyle (IconHelper.finish k h) "--icon-weight"
          = getStyle (IconHelper.finish 1 h) "--icon-weight" := by
  intro k s fs h
  refine ⟨?_, ?_, ?_⟩
  · obtain ⟨sz, ld, w, st⟩ := fs
    cases w <;> cases st <;>
      simp [text, TextHelper.render_with_style, scaleNonIconWeightPx,
        Dom.scalePx, Dom.scalePxList, scaleStyleEntry, scaled_size]
  · cases hw : h.style.weight <;>
      simp [IconHelper.finish, scaleNonIconWeightPx, Dom.scalePx,
        Dom.scalePxList, scaleStyleEntry, scaled_size, hw, render_icon_svg]
  · cases hw : h.style.weight <;>
      simp [IconHelper.finish, getStyle, hw, List.find?]

/-- Once the fragment for an icon kind is cached, every further accessor call
returns a deep clone of the cached fragment (structurally that fragment) and
leaves the process state untouched. -/
theorem runAccessor_cached (parse : String → Node) (i : Icon) (n : Node) :
    ∀ (count : Nat) (st : IconCache), st.cached i = some n →
      runAccessor parse i count st = (List.replicate count n, st) := by
  intro count
  induction count with
  | zero => intro st _; rfl
  | succ m ih =>
    intro st hst
    simp [runAccessor, render_icon_svg_cached, hst, Node.deepClone_eq,
      ih st hst, List.replicate_succ]

/-- C8: static icon-markup initialization is idempotent — for every icon
kind, starting from the empty process state, invoking the accessor any
number of times runs the markup-parsing initializer at most once (exactly
`min count 1` times), every returned fragment is structurally identical to
the originally parsed source (hence all fragments are identical to each
other), and each returned fragment is an independently rebuilt deep copy
(`Node.deepClone`, which is structurally the identity). -/
theorem icon_markup_accessor_idempotent :
    ∀ (parse : String → Node) (i : Icon) (count : Nat),
      (runAccessor parse i count IconCache.empty).1
        = List.replicate count (parse (iconSvgSource i))
      ∧ (runAccessor parse i count IconCache.empty).2.parses i = min count 1
      ∧ (∀ m : Node, Node.deepClone m = m) := by
  intro parse i count
  refine ⟨?_, ?_, Node.deepClone_eq⟩ <;>
  · cases count with
    | zero => simp [runAccessor, IconCache.empty]
    | succ m =>
      have hrest := runAccessor_cached parse i (parse (iconSvgSource i)) m
        { cached := Function.update (fun _ => none) i (some (parse (iconSvgSource i)))
          parses := Function.update (fun _ => 0) i 1 }
        (by simp)
      simp [runAccessor, render_icon_svg_cached, IconCache.empty,
        Node.deepClone_eq, hrest, List.replicate_succ]

/-- Counterexample to C9: the fixed typographic scale does not have 12 named
presets — the complete list of named terminal methods has 11 entries. -/
theorem named_preset_count_not_twelve : Preset.all.length ≠ 12 := by
  decide

/-- C9 (amended): the fixed typographic scale offered by the text and icon
helpers consists of exactly 11 named presets plus one arbitrary "custom"
entry: the list of named presets is complete, duplicate-free, of length 11,
and the 11 presets carry pairwise distinct documented font styles. -/
theorem scale_has_eleven_named_presets :
    Preset.all.length = 11
    ∧ Preset.all.Nodup
    ∧ (∀ p : Preset, p ∈ Preset.all)
    ∧ (Preset.all.map docFontStyle).Nodup := by
  refine ⟨by decide, by decide, ?_, by decide⟩
  intro p
  cases p <;> simp [Preset.all]

/-- When an icon helper with no stroke weight has a sequence of builder
operations applied, none of which is a `.weight(px)` call or a `.font` call
whose font weight maps through the table, the stroke weight stays unset. -/
theorem applyOps_weight_none :
    ∀ (ops : List IconOp) (h : IconHelper), h.style.weight = none →
      ops.all opKeepsWeightUnset = true → (applyOps h ops).style.weight = none := by
  intro ops
  induction ops with
  | nil => intro h hw _; exact hw
  | cons op rest ih =>
    intro h hw hall
    rw [List.all_cons, Bool.and_eq_true] at hall
    rw [applyOps, List.foldl_cons]
    refine ih (applyOp h op) ?_ hall.2
    cases op with
    | customSizeOp s => simpa [applyOp, IconHelper.custom_size] using hw
    | weightOp w => simp [opKeepsWeightUnset] at hall
    | fontOp fs =>
      have hm : font_weight_to_icon_weight fs.weight = none := by
        simpa [opKeepsWeightUnset, Option.isNone_iff_eq_none] using hall.1
      simp [applyOp, IconHelper.font, hm, hw]

/-- When a sequence of builder operations contains no size-changing
operation (no `.custom_size(px)` and no `.font(fs)` call), applying it to an
icon helper leaves the helper's size unchanged. -/
theorem applyOps_size_preserved :
    ∀ (ops : List IconOp) (h : IconHelper),
      ops.all opKeepsSize = true → (applyOps h ops).style.size = h.style.size := by
  intro ops
  induction ops with
  | nil => intro h _; rfl
  | cons op rest ih =>
    intro h hall
    rw [List.all_cons, Bool.and_eq_true] at hall
    rw [applyOps, List.foldl_cons]
    have hstep : (applyOp h op).style.size = h.style.size := by
      cases op with
      | customSizeOp s => simp [opKeepsSize] at hall
      | weightOp w => rfl
      | fontOp fs => simp [opKeepsSize] at hall
    rw [← hstep]
    exact ih (applyOp h op) hall.2

/-- Counterexample to C10: a `.font` call whose weight does not map through
the table is neither a `.weight(px)` call nor a mapping font style, yet it
changes the container size — after `.font(FontStyle::new(17.0, 22.0))` the
emitted container is 17px wide at scale 1.0, not 16px. -/
theorem default_icon_sixteen_counterexample :
    ([IconOp.fontOp (FontStyle.new 17 22)].all opKeepsWeightUnset = true)
    ∧ getStyle
        (IconHelper.finish TEXT_SCALE
          (applyOps (icon Icon.Plus) [IconOp.fontOp (FontStyle.new 17 22)]))
        "width" ≠ some (StyleVal.px 16) := by
  refine ⟨by decide, ?_⟩
  simp [applyOps, applyOp, icon, IconHelper.new, IconStyle.new, IconHelper.font,
    FontStyle.new, font_weight_to_icon_weight, IconHelper.finish, getStyle,
    scaled_size, TEXT_SCALE, List.find?]

/-- C10 (amended): `icon(kind)` starts with the default style of size 16 and
no weight; if neither a `.weight(px)` call nor a font style whose weight maps
through the table is applied before finishing, no `--icon-weight` declaration
is emitted; and if no size-changing builder operation (`.custom_size` or
`.font`) is applied at all — i.e. for every sequence consisting only of
`.weight(px)` calls, the empty one included — the emitted container is 16px
by 16px at scale 1.0. -/
theorem default_icon_style_sixteen_no_weight :
    ∀ (k : Icon) (ops : List IconOp),
      (icon k).style.size = 16
      ∧ (icon k).style.weight = none
      ∧ (ops.all opKeepsWeightUnset = true →
          getStyle (IconHelper.finish TEXT_SCALE (applyOps (icon k) ops))
            "--icon-weight" = none)
      ∧ (ops.all opKeepsSize = true →
          getStyle (IconHelper.finish TEXT_SCALE (applyOps (icon k) ops)) "width"
              = some (StyleVal.px 16)
          ∧ getStyle (IconHelper.finish TEXT_SCALE (applyOps (icon k) ops)) "height"
              = some (StyleVal.px 16)) := by
  intro k ops
  refine ⟨rfl, rfl, ?_, ?_⟩
  · intro hall
    have hw := applyOps_weight_none ops (icon k) rfl hall
    simp [IconHelper.finish, getStyle, hw, List.find?]
  · intro hall
    have hs : (applyOps (icon k) ops).style.size = 16 :=
      applyOps_size_preserved ops (icon k) hall
    cases hweight : (applyOps (icon k) ops).style.weight <;>
      simp [IconHelper.finish, getStyle, scaled_size, TEXT_SCALE, hs, hweight,
        List.find?]

/-- Witness for C10 (amended): the freshly created Plus icon emits no
`--icon-weight` declaration, and after a weight-only builder sequence
(`.weight(5.0)`) the emitted container is still 16px wide. -/
theorem default_icon_style_sixteen_no_weight_witness :
    getStyle (IconHelper.finish TEXT_SCALE (applyOps (icon Icon.Plus) []))
      "--icon-weight" = none
    ∧ getStyle
        (IconHelper.finish TEXT_SCALE
          (applyOps (icon Icon.Plus) [IconOp.weightOp 5])) "width"
        = some (StyleVal.px 16) := by
  exact ⟨(default_icon_style_sixteen_no_weight Icon.Plus []).2.2.1 rfl,
    ((default_icon_style_sixteen_no_weight Icon.Plus [IconOp.weightOp 5]).2.2.2
      rfl).1⟩
